import Mathlib

/-!
Verification of the basenames-cli naming core against its specification.

The development shallowly embeds the TypeScript sources:
- `src/utils/node.ts` and its subname-aware variant (node hashing),
- `src/config/deployments.ts` (network table, coin types),
- `src/utils/contracts.ts` (record writers, subname creation, reverse
  resolution), modelled as pure functions from an explicit chain-state
  oracle to a result plus a trace of simulate/submit/wait actions,
- the resolver-lookup command and the 4-stage contract-naming command.

Dotted names are represented as their list of labels (most specific label
first); a label is dot-free, so the representation is faithful to the
string form.  keccak-256 is implemented concretely (verified below against
the standard test vectors), so node equalities and inequalities are genuine
value-level facts.  Machine words are `Nat` with explicit reduction
modulo `2 ^ 64`.
-/

/-- Rotate a 64-bit lane left by `n` (result reduced modulo `2 ^ 64`). -/
def rotl64 (x n : Nat) : Nat :=
  ((x <<< n) ||| (x >>> (64 - n))) % (2 ^ 64)

/-- All-ones 64-bit mask, used for bitwise complement. -/
def mask64 : Nat := 2 ^ 64 - 1

/-- Keccak-f[1600] state: 25 64-bit lanes, lane (x, y) in field `s(x+5*y)`. -/
structure KState where
  s0 : Nat
  s1 : Nat
  s2 : Nat
  s3 : Nat
  s4 : Nat
  s5 : Nat
  s6 : Nat
  s7 : Nat
  s8 : Nat
  s9 : Nat
  s10 : Nat
  s11 : Nat
  s12 : Nat
  s13 : Nat
  s14 : Nat
  s15 : Nat
  s16 : Nat
  s17 : Nat
  s18 : Nat
  s19 : Nat
  s20 : Nat
  s21 : Nat
  s22 : Nat
  s23 : Nat
  s24 : Nat

def keccakRound (rc : Nat) (s : KState) : KState :=
  let c0 := s.s0 ^^^ s.s5 ^^^ s.s10 ^^^ s.s15 ^^^ s.s20
  let c1 := s.s1 ^^^ s.s6 ^^^ s.s11 ^^^ s.s16 ^^^ s.s21
  let c2 := s.s2 ^^^ s.s7 ^^^ s.s12 ^^^ s.s17 ^^^ s.s22
  let c3 := s.s3 ^^^ s.s8 ^^^ s.s13 ^^^ s.s18 ^^^ s.s23
  let c4 := s.s4 ^^^ s.s9 ^^^ s.s14 ^^^ s.s19 ^^^ s.s24
  let d0 := c4 ^^^ rotl64 c1 1
  let d1 := c0 ^^^ rotl64 c2 1
  let d2 := c1 ^^^ rotl64 c3 1
  let d3 := c2 ^^^ rotl64 c4 1
  let d4 := c3 ^^^ rotl64 c0 1
  let t0 := s.s0 ^^^ d0
  let t1 := s.s1 ^^^ d1
  let t2 := s.s2 ^^^ d2
  let t3 := s.s3 ^^^ d3
  let t4 := s.s4 ^^^ d4
  let t5 := s.s5 ^^^ d0
  let t6 := s.s6 ^^^ d1
  let t7 := s.s7 ^^^ d2
  let t8 := s.s8 ^^^ d3
  let t9 := s.s9 ^^^ d4
  let t10 := s.s10 ^^^ d0
  let t11 := s.s11 ^^^ d1
  let t12 := s.s12 ^^^ d2
  let t13 := s.s13 ^^^ d3
  let t14 := s.s14 ^^^ d4
  let t15 := s.s15 ^^^ d0
  let t16 := s.s16 ^^^ d1
  let t17 := s.s17 ^^^ d2
  let t18 := s.s18 ^^^ d3
  let t19 := s.s19 ^^^ d4
  let t20 := s.s20 ^^^ d0
  let t21 := s.s21 ^^^ d1
  let t22 := s.s22 ^^^ d2
  let t23 := s.s23 ^^^ d3
  let t24 := s.s24 ^^^ d4
  let b0 := t0
  let b1 := rotl64 t6 44
  let b2 := rotl64 t12 43
  let b3 := rotl64 t18 21
  let b4 := rotl64 t24 14
  let b5 := rotl64 t3 28
  let b6 := rotl64 t9 20
  let b7 := rotl64 t10 3
  let b8 := rotl64 t16 45
  let b9 := rotl64 t22 61
  let b10 := rotl64 t1 1
  let b11 := rotl64 t7 6
  let b12 := rotl64 t13 25
  let b13 := rotl64 t19 8
  let b14 := rotl64 t20 18
  let b15 := rotl64 t4 27
  let b16 := rotl64 t5 36
  let b17 := rotl64 t11 10
  let b18 := rotl64 t17 15
  let b19 := rotl64 t23 56
  let b20 := rotl64 t2 62
  let b21 := rotl64 t8 55
  let b22 := rotl64 t14 39
  let b23 := rotl64 t15 41
  let b24 := rotl64 t21 2
  let e0 := b0 ^^^ ((mask64 ^^^ b1) &&& b2)
  let e1 := b1 ^^^ ((mask64 ^^^ b2) &&& b3)
  let e2 := b2 ^^^ ((mask64 ^^^ b3) &&& b4)
  let e3 := b3 ^^^ ((mask64 ^^^ b4) &&& b0)
  let e4 := b4 ^^^ ((mask64 ^^^ b0) &&& b1)
  let e5 := b5 ^^^ ((mask64 ^^^ b6) &&& b7)
  let e6 := b6 ^^^ ((mask64 ^^^ b7) &&& b8)
  let e7 := b7 ^^^ ((mask64 ^^^ b8) &&& b9)
  let e8 := b8 ^^^ ((mask64 ^^^ b9) &&& b5)
  let e9 := b9 ^^^ ((mask64 ^^^ b5) &&& b6)
  let e10 := b10 ^^^ ((mask64 ^^^ b11) &&& b12)
  let e11 := b11 ^^^ ((mask64 ^^^ b12) &&& b13)
  let e12 := b12 ^^^ ((mask64 ^^^ b13) &&& b14)
  let e13 := b13 ^^^ ((mask64 ^^^ b14) &&& b10)
  let e14 := b14 ^^^ ((mask64 ^^^ b10) &&& b11)
  let e15 := b15 ^^^ ((mask64 ^^^ b16) &&& b17)
  let e16 := b16 ^^^ ((mask64 ^^^ b17) &&& b18)
  let e17 := b17 ^^^ ((mask64 ^^^ b18) &&& b19)
  let e18 := b18 ^^^ ((mask64 ^^^ b19) &&& b15)
  let e19 := b19 ^^^ ((mask64 ^^^ b15) &&& b16)
  let e20 := b20 ^^^ ((mask64 ^^^ b21) &&& b22)
  let e21 := b21 ^^^ ((mask64 ^^^ b22) &&& b23)
  let e22 := b22 ^^^ ((mask64 ^^^ b23) &&& b24)
  let e23 := b23 ^^^ ((mask64 ^^^ b24) &&& b20)
  let e24 := b24 ^^^ ((mask64 ^^^ b20) &&& b21)
  ⟨e0 ^^^ rc, e1, e2, e3, e4, e5, e6, e7, e8, e9, e10, e11, e12, e13, e14, e15, e16, e17, e18, e19, e20, e21, e22, e23, e24⟩

/-- Keccak round constants (iota step). -/
def keccakRC : List Nat :=
  [0x1, 0x8082, 0x800000000000808a,
   0x8000000080008000, 0x808b, 0x80000001,
   0x8000000080008081, 0x8000000000008009, 0x8a,
   0x88, 0x80008009, 0x8000000a,
   0x8000808b, 0x800000000000008b, 0x8000000000008089,
   0x8000000000008003, 0x8000000000008002, 0x8000000000000080,
   0x800a, 0x800000008000000a, 0x8000000080008081,
   0x8000000000008080, 0x80000001, 0x8000000080008008]

/-- Keccak-f[1600]: 24 rounds. -/
def keccakF (s : KState) : KState :=
  keccakRC.foldl (fun st rc => keccakRound rc st) s

/-- Multi-rate padding for keccak-256 (rate 136 bytes, domain byte 0x01). -/
def keccakPad (msg : List Nat) : List Nat :=
  let r := 136
  let padlen := r - msg.length % r
  if padlen == 1 then msg ++ [0x81]
  else msg ++ [0x01] ++ List.replicate (padlen - 2) 0 ++ [0x80]

/-- Little-endian bytes to a 64-bit lane. -/
def bytesToLane (bs : List Nat) : Nat :=
  bs.foldr (fun b acc => acc * 256 + b) 0

/-- Lane `i` of a 136-byte rate block. -/
def blockLane (block : List Nat) (i : Nat) : Nat :=
  bytesToLane ((block.drop (8 * i)).take 8)

/-- Absorb one 136-byte block into the sponge state. -/
def absorbBlock (s : KState) (b : List Nat) : KState :=
  keccakF {
    s0 := s.s0 ^^^ blockLane b 0, s1 := s.s1 ^^^ blockLane b 1,
    s2 := s.s2 ^^^ blockLane b 2, s3 := s.s3 ^^^ blockLane b 3,
    s4 := s.s4 ^^^ blockLane b 4, s5 := s.s5 ^^^ blockLane b 5,
    s6 := s.s6 ^^^ blockLane b 6, s7 := s.s7 ^^^ blockLane b 7,
    s8 := s.s8 ^^^ blockLane b 8, s9 := s.s9 ^^^ blockLane b 9,
    s10 := s.s10 ^^^ blockLane b 10, s11 := s.s11 ^^^ blockLane b 11,
    s12 := s.s12 ^^^ blockLane b 12, s13 := s.s13 ^^^ blockLane b 13,
    s14 := s.s14 ^^^ blockLane b 14, s15 := s.s15 ^^^ blockLane b 15,
    s16 := s.s16 ^^^ blockLane b 16,
    s17 := s.s17, s18 := s.s18, s19 := s.s19, s20 := s.s20,
    s21 := s.s21, s22 := s.s22, s23 := s.s23, s24 := s.s24 }

/-- All-zero initial sponge state. -/
def kInit : KState :=
  ⟨0, 0, 0, 0, 0, 0, 0, 0, 0, 0, 0, 0, 0, 0, 0, 0, 0, 0, 0, 0, 0, 0, 0, 0, 0⟩

/-- Split a byte list into 136-byte blocks (fuel-indexed structural recursion). -/
def chunksGo : Nat → List Nat → List (List Nat)
  | 0, _ => []
  | _ + 1, [] => []
  | fuel + 1, a :: rest => (a :: rest).take 136 :: chunksGo fuel ((a :: rest).drop 136)

/-- Little-endian byte decomposition of a 64-bit lane. -/
def laneBytes (x : Nat) : List Nat :=
  (List.range 8).map (fun i => (x >>> (8 * i)) % 256)

/-- keccak-256 of a byte string, returned as the 256-bit big-endian value
(the `0x…` bytes32 the TypeScript code passes around). -/
def keccak256Bytes (msg : List Nat) : Nat :=
  let padded := keccakPad msg
  let blocks := chunksGo (padded.length + 1) padded
  let s := blocks.foldl absorbBlock kInit
  (laneBytes s.s0 ++ laneBytes s.s1 ++ laneBytes s.s2 ++ laneBytes s.s3).foldl
    (fun acc b => acc * 256 + b) 0

/-- Bytes of a string (the embedding only uses ASCII names, where the UTF-8
encoding used by viem's `toBytes` is the code-point sequence). -/
def strBytes (s : String) : List Nat := s.data.map Char.toNat

/-- Big-endian byte decomposition of a `w`-byte word (abi `encodePacked`). -/
def natToBytesBE (w x : Nat) : List Nat :=
  (List.range w).map (fun i => (x >>> (8 * (w - 1 - i))) % 256)

/-- keccak256(encodePacked(bytes32, bytes32)) — the node-combination step used
throughout `node.ts` and `contracts.ts`. -/
def keccakPair (a b : Nat) : Nat := keccak256Bytes (natToBytesBE 32 a ++ natToBytesBE 32 b)

set_option maxRecDepth 200000
set_option maxHeartbeats 2000000

/-- Standard test vector: keccak-256 of the empty string. -/
theorem keccak256_empty_vector :
    keccak256Bytes [] = 0xc5d2460186f7233c927e7db2dcc703c0e500b653ca82273b7bfad8045d85a470 := by
  decide

/-- Standard test vector: keccak-256 of "abc". -/
theorem keccak256_abc_vector :
    keccak256Bytes (strBytes "abc") =
      0x4e03657aea45a94fc7d47ba826c8d667c0d1e6e33a64a036ec44f58fa12d6c45 := by
  decide

/-- Lowercase an ASCII string, modelling JavaScript `String.prototype.toLowerCase`
on the address and name strings the code compares. -/
def lowerStr (s : String) : String := ⟨s.data.map Char.toLower⟩

/-- Canonical-form normalization of one label, embedding the external
`viem/ens` `normalize` collaborator (ENSIP-15); on the ASCII names this
development uses, that normalization is ASCII lowercasing.  (Named
`ensNormalize` because Mathlib already owns the name `normalize`.) -/
def ensNormalize (s : String) : String := lowerStr s

/-- The zero address literal the source compares registry reads against. -/
def zeroAddress : String := "0x0000000000000000000000000000000000000000"

/-- keccak-256 of a raw (already normalized) label's bytes, viem's `labelhash`:
what `namehash` applies to each label. -/
def rawLabelHash (s : String) : Nat := keccak256Bytes (strBytes s)

/-- Standard recursive ENS namehash over a label list (most specific label
first): `namehash([]) = 0`, `namehash(l :: rest) = keccak256(namehash(rest) ||
labelhash(l))`.  This is viem's `namehash` on the dotted string whose labels
are the list. -/
def namehashLabels : List String → Nat
  | [] => 0
  | l :: rest => keccakPair (namehashLabels rest) (rawLabelHash l)

/-- Iterated application of the standard recursive scheme: fold the labels
(most specific first) onto a starting node. -/
def iterScheme (start : Nat) (labels : List String) : Nat :=
  labels.foldr (fun l acc => keccakPair acc (rawLabelHash l)) start

/-- Standard test vector: `namehash("eth")`. -/
theorem namehash_eth_vector :
    namehashLabels ["eth"] =
      0x93cdeb708b7545dc668eb9280176169d1c33cfd8ed6f04690a0bcc88a93fc4ae := by
  decide

theorem namehashLabels_append (xs ys : List String) :
    namehashLabels (xs ++ ys) = iterScheme (namehashLabels ys) xs := by
  induction xs with
  | nil => simp [iterScheme]
  | cons x xs ih =>
    simp only [List.cons_append, namehashLabels, iterScheme, List.foldr_cons,
      List.append_eq] at ih ⊢
    rw [ih]

/-- Network configuration record, from `src/config/deployments.ts` (the fields
the verified core reads; the parent domain is kept as its label list). -/
structure NetworkConfig where
  chainId : Nat
  parentDomain : List String
  registry : String
  resolver : String
  registrarController : String
  baseRegistrar : String
  reverseRegistrar : String
  deriving DecidableEq

/-- Base Sepolia deployment (`BASENAMES_DEPLOYMENTS.baseSepolia`). -/
def baseSepoliaConfig : NetworkConfig :=
  { chainId := 84532
    parentDomain := ["basetest", "eth"]
    registry := "0x1493b2567056c2181630115660963E13A8E32735"
    resolver := "0x6533C94869D28fAA8dF77cc63f9e2b2D6Cf77eBA"
    registrarController := "0x49aE3cC2e3AA768B1e5654f5D3C6002144A59581"
    baseRegistrar := "0xa0c70ec36c010b55e3c434d6c6ebeec50c705794"
    reverseRegistrar := "0x876eF94ce0773052a2f81921E70FF25a5e76841f" }

/-- Base mainnet deployment (`BASENAMES_DEPLOYMENTS.base`). -/
def baseConfig : NetworkConfig :=
  { chainId := 8453
    parentDomain := ["base", "eth"]
    registry := "0xb94704422c2a1e396835a571837aa5ae53285a95"
    resolver := "0xC6d566A56A1aFf6508b41f6c90ff131615583BCD"
    registrarController := "0x4cCb0BB02FCABA27e82a56646E81d8c5bC4119a5"
    baseRegistrar := "0x03c4738Ee98aE44591e1A4A4F3CaB6641d95DD9a"
    reverseRegistrar := "0x79ea96012eea67a83431f1701b3dff7e37f9e282" }

/-- Deployment table `BASENAMES_DEPLOYMENTS` keyed by network name. -/
def BASENAMES_DEPLOYMENTS : List (String × NetworkConfig) :=
  [("baseSepolia", baseSepoliaConfig), ("base", baseConfig)]

/-- Coin-type constant for Base mainnet (`deployments.ts`). -/
def BASE_MAINNET_COIN_TYPE : Nat := 2147492101

/-- Coin-type constant for Base Sepolia (`deployments.ts`). -/
def BASE_SEPOLIA_COIN_TYPE : Nat := 2147568180

/-- Coin-type selection `getCoinType` from `deployments.ts`, as a function of
the resolved network configuration. -/
def getCoinType (cfg : NetworkConfig) : Nat :=
  if cfg.chainId = 8453 then BASE_MAINNET_COIN_TYPE
  else if cfg.chainId = 84532 then BASE_SEPOLIA_COIN_TYPE
  else 60

/-- Suffix stripping shared by both `extractLabel` versions: drop the parent
domain from the end of the label path when the lowercased name ends with
`"." + parentDomain.toLowerCase()` (at the label level: the lowercased parent
labels are a proper suffix of the lowercased name labels). -/
def removeParentSuffix (name parent : List String) : List String :=
  if parent.length < name.length ∧
      (name.map lowerStr).drop (name.length - parent.length) = parent.map lowerStr
  then name.take (name.length - parent.length)
  else name

/-- Root node of the parent domain, `getParentNode` in `node.ts`:
viem `namehash` of the configured parent domain (the standard recursive
scheme applied to the domain itself). -/
def getParentNode (cfg : NetworkConfig) : Nat := namehashLabels cfg.parentDomain

/-- Hash of a single label after normalization, `labelHash` in `node.ts`. -/
def labelHash (label : String) : Nat := rawLabelHash (ensNormalize label)

/-- Top-level node formula `calculateBasenameNode` from `node.ts`:
`keccak256(encodePacked(parentNode, keccak256(normalize(label))))`. -/
def calculateBasenameNode (label : String) (cfg : NetworkConfig) : Nat :=
  keccakPair (getParentNode cfg) (rawLabelHash (ensNormalize label))

/-- Node combination `calculateSubnameNode` from `contracts.ts`: the top-level
formula applied to an arbitrary parent node and a precomputed label hash. -/
def calculateSubnameNode (parentNode lblHash : Nat) : Nat :=
  keccakPair parentNode lblHash

/-- Result record of `normalizeBasename` in `src/utils/node.ts`. -/
structure BasenameInfo where
  label : String
  fullName : List String
  node : Nat
  deriving DecidableEq

namespace NodeV1

/-- Label extraction from `src/utils/node.ts`: strip the parent-domain suffix,
then keep only the FIRST label of what remains (`parts[0]`). -/
def extractLabel (input : List String) (cfg : NetworkConfig) : String :=
  (removeParentSuffix input cfg.parentDomain).headD ""

/-- Full-name construction from `src/utils/node.ts`: one normalized label
prepended to the parent domain. -/
def getFullBasename (label : String) (cfg : NetworkConfig) : List String :=
  ensNormalize label :: cfg.parentDomain

/-- Input normalization `normalizeBasename` from `src/utils/node.ts`: always
computes the node with the top-level basename formula on the extracted
(first) label. -/
def normalizeBasename (input : List String) (cfg : NetworkConfig) : BasenameInfo :=
  let label := extractLabel input cfg
  let normalizedLabel := ensNormalize label
  { label := normalizedLabel
    fullName := getFullBasename normalizedLabel cfg
    node := calculateBasenameNode normalizedLabel cfg }

end NodeV1

/-- Result record of the subname-aware `normalizeBasename` variant. -/
structure BasenamePathInfo where
  labelPath : List String
  fullName : List String
  node : Nat
  deriving DecidableEq

namespace NodeV2

/-- Label extraction from the subname-aware `node.ts` variant: strip the
parent-domain suffix and keep the whole remaining label path. -/
def extractLabel (input : List String) (cfg : NetworkConfig) : List String :=
  removeParentSuffix input cfg.parentDomain

/-- Subname test from the subname-aware variant: the extracted label path
contains a dot, i.e. has at least two labels. -/
def isSubname (input : List String) (cfg : NetworkConfig) : Bool :=
  1 < (extractLabel input cfg).length

/-- Full-name construction from the subname-aware variant: each label of the
path normalized separately, then the parent domain appended. -/
def getFullBasename (labelPath : List String) (cfg : NetworkConfig) : List String :=
  labelPath.map ensNormalize ++ cfg.parentDomain

/-- Input normalization `normalizeBasename` from the subname-aware variant:
standard ENS namehash of the full name for subnames, the top-level basename
formula otherwise. -/
def normalizeBasename (input : List String) (cfg : NetworkConfig) : BasenamePathInfo :=
  let labelPath := extractLabel input cfg
  let fullName := getFullBasename labelPath cfg
  let node :=
    if isSubname input cfg then namehashLabels fullName
    else calculateBasenameNode (ensNormalize (labelPath.headD "")) cfg
  { labelPath := labelPath, fullName := fullName, node := node }

end NodeV2

/-- Contract call payloads the verified core can place in a transaction.
Full names are carried as label lists. -/
inductive Call where
  | setSubnodeRecord (parentNode lblHash : Nat) (owner resolver : String) (ttl : Nat)
  | setText (node : Nat) (key value : String)
  | setAddr (node : Nat) (addr : String)
  | setAddrWithCoinType (node coinType : Nat) (addrBytes : String)
  | register (name owner : String) (duration : Nat) (resolver : String) (reverseRecord : Bool)
  | setNameForAddr2 (addr : String) (name : List String)
  | setNameForAddr4 (addr owner resolver : String) (name : List String)
  deriving DecidableEq

/-- Transaction request: target contract address plus call payload.  Submitted
transactions are identified by this request (the model's "hash"). -/
structure Tx where
  target : String
  call : Call
  deriving DecidableEq

/-- Observable network effects of one operation, in order: pre-flight
`simulateContract`, `writeContract` submission, `waitForTransactionReceipt`
with its confirmation count. -/
inductive NetAction where
  | simulate (tx : Tx)
  | submit (tx : Tx)
  | waitReceipt (confirmations : Nat)
  deriving DecidableEq

/-- Errors surfaced by the embedded operations (the `throw new Error(...)`
paths of `contracts.ts`). -/
inductive OpError where
  | subnameConflict (owner : String)
  | simulationFailed (reason : String)
  | ownerReadFailed (contractAddress : String)
  | rpcError (msg : String)
  deriving DecidableEq

/-- Outcome of the raw `registry.resolver(node)` read: a value, or a thrown
error whose message may look like a transport failure (the source inspects
the message for "timeout" / "network" / "ECONNREFUSED" / "fetch failed"). -/
inductive ResolverRead where
  | ok (addr : String)
  | err (netErr : Bool) (msg : String)
  deriving DecidableEq

/-- Indexed-service (ENSNode) record for a name: the optional resolver
pointer. -/
structure DomainData where
  resolverAddress : Option String
  deriving DecidableEq

/-- Outcome of the indexed-service lookup `getDomainByName`: a thrown error,
or a possibly-missing domain record. -/
inductive IndexResult where
  | failure
  | ok (d : Option DomainData)
  deriving DecidableEq

/-- Chain-state oracle: what the RPC endpoint and the indexed service answer
during one invocation.  Reads are modelled as total lookups except where the
source distinguishes a thrown error. -/
structure Chain where
  ownerOf : Nat → String
  resolverRead : Nat → ResolverRead
  addrForCoin : Nat → Nat → String
  nameForAddr : String → List String
  contractOwner : String → Option String
  simulateRegister : Option String
  receiptStatus : Tx → Bool
  index : IndexResult

/-- Result of one embedded operation: the returned value or thrown error,
plus the trace of simulate/submit/wait effects it performed. -/
structure OpResult (α : Type) where
  result : Except OpError α
  actions : List NetAction

deriving instance DecidableEq for Except

instance {α : Type} [DecidableEq α] : DecidableEq (OpResult α) :=
  fun a b =>
    decidable_of_iff (a.result = b.result ∧ a.actions = b.actions)
      (by cases a; cases b; simp)

/-- Registry owner lookup `getOwner` from `contracts.ts`: the zero address
reads as "no owner" (`null`). -/
def getOwnerModel (env : Chain) (node : Nat) : Option String :=
  let owner := env.ownerOf node
  if owner = zeroAddress then none else some owner

/-- Registry resolver lookup `getResolver` from `contracts.ts`: zero address
reads as `null`; a thrown transport-looking error is re-thrown as an RPC
error, any other read error is swallowed to `null`. -/
def getResolverModel (env : Chain) (node : Nat) : Except OpError (Option String) :=
  match env.resolverRead node with
  | .ok r => if r = zeroAddress then .ok none else .ok (some r)
  | .err netErr msg => if netErr then .error (.rpcError msg) else .ok none

/-- Resolver-for-writes lookup `getResolverFromParent` from `contracts.ts`:
the parent's resolver, falling back to the network's public resolver. -/
def getResolverFromParentModel (cfg : NetworkConfig) (env : Chain)
    (parentNode : Nat) : Except OpError String :=
  match getResolverModel env parentNode with
  | .error e => .error e
  | .ok (some r) => .ok r
  | .ok none => .ok cfg.resolver

/-- Parent-ownership check `checkParentOwnership` from `contracts.ts`:
case-insensitive comparison of the registry owner with the signer address. -/
def checkParentOwnershipModel (env : Chain) (signer : String) (parentNode : Nat) : Bool :=
  (getOwnerModel env parentNode).map lowerStr = some (lowerStr signer)

/-- Subname creation `createSubname` from `contracts.ts`: no-op when the child
node is already owned by the signer, conflict error when owned by anyone
else, otherwise one `setSubnodeRecord` transaction followed by a 2-confirmation
wait.  The signer's wallet is assumed configured. -/
def createSubnameModel (cfg : NetworkConfig) (env : Chain) (signer : String)
    (parentNode lblHash : Nat) : OpResult (Option Tx) :=
  let subnameNode := calculateSubnameNode parentNode lblHash
  let existingOwner := getOwnerModel env subnameNode
  match existingOwner with
  | some a =>
    if lowerStr a = lowerStr signer then ⟨.ok none, []⟩
    else if a ≠ zeroAddress then ⟨.error (.subnameConflict a), []⟩
    else
      match getResolverFromParentModel cfg env parentNode with
      | .error e => ⟨.error e, []⟩
      | .ok resolver =>
        let tx : Tx := ⟨cfg.registry, .setSubnodeRecord parentNode lblHash signer resolver 0⟩
        ⟨.ok (some tx), [.submit tx, .waitReceipt 2]⟩
  | none =>
    match getResolverFromParentModel cfg env parentNode with
    | .error e => ⟨.error e, []⟩
    | .ok resolver =>
      let tx : Tx := ⟨cfg.registry, .setSubnodeRecord parentNode lblHash signer resolver 0⟩
      ⟨.ok (some tx), [.submit tx, .waitReceipt 2]⟩

/-- Packed 20-byte encoding of an address, `encodePacked(["address"], [a])`:
viem renders the bytes as the lowercased hex string. -/
def encodeAddr (a : String) : String := lowerStr a

/-- Coin-type address write `setAddressRecordWithCoinType` from
`contracts.ts`: no-op when the resolver already stores the encoded address,
otherwise one `setAddr(node, coinType, bytes)` transaction followed by a
2-confirmation wait. -/
def setAddressRecordWithCoinTypeModel (env : Chain) (node : Nat) (address : String)
    (coinType : Nat) (resolverAddress : String) : OpResult (Option Tx) :=
  let encoded := encodeAddr address
  let existing := env.addrForCoin node coinType
  if existing ≠ "" ∧ existing.length = 42 ∧ lowerStr existing = lowerStr encoded then
    ⟨.ok none, []⟩
  else
    let tx : Tx := ⟨resolverAddress, .setAddrWithCoinType node coinType encoded⟩
    ⟨.ok (some tx), [.submit tx, .waitReceipt 2]⟩

/-- Reverse-resolution write `setReverseResolutionL2` from `contracts.ts`:
no-op when the primary name already matches; otherwise reads the target
contract's `owner()` (a throw here propagates), then submits one 4-argument
`setNameForAddr` transaction followed by a 2-confirmation wait. -/
def setReverseResolutionL2Model (cfg : NetworkConfig) (env : Chain)
    (contractAddress : String) (name : List String) : OpResult (Option Tx) :=
  let existing := env.nameForAddr contractAddress
  if existing ≠ [] ∧ existing.map lowerStr = name.map lowerStr then
    ⟨.ok none, []⟩
  else
    match env.contractOwner contractAddress with
    | none => ⟨.error (.ownerReadFailed contractAddress), []⟩
    | some ownerAddr =>
      let tx : Tx := ⟨cfg.reverseRegistrar, .setNameForAddr4 contractAddress ownerAddr cfg.resolver name⟩
      ⟨.ok (some tx), [.submit tx, .waitReceipt 2]⟩

/-- Primary-name write `setPrimaryNameOnChain` from `contracts.ts`: always one
4-argument `setNameForAddr(signer, signer, resolver, name)` submission on the
network's reverse registrar (confirmation is awaited by the command layer). -/
def setPrimaryNameOnChainModel (cfg : NetworkConfig) (signer : String)
    (name : List String) : OpResult Tx :=
  let tx : Tx := ⟨cfg.reverseRegistrar, .setNameForAddr4 signer signer cfg.resolver name⟩
  ⟨.ok tx, [.submit tx]⟩

/-- Text-record write `setTextRecordOnChain` from `contracts.ts`: one
`setText` submission on the supplied (or default public) resolver; no
pre-flight simulation, no confirmation wait inside the function. -/
def setTextRecordOnChainModel (cfg : NetworkConfig) (resolverAddress : Option String)
    (node : Nat) (key value : String) : OpResult Tx :=
  let resolver := resolverAddress.getD cfg.resolver
  let tx : Tx := ⟨resolver, .setText node key value⟩
  ⟨.ok tx, [.submit tx]⟩

/-- Address-record write `setAddressRecordOnChain` from `contracts.ts`: one
`setAddr` submission on the supplied (or default public) resolver; no
pre-flight simulation, no confirmation wait inside the function. -/
def setAddressRecordOnChainModel (cfg : NetworkConfig) (resolverAddress : Option String)
    (node : Nat) (address : String) : OpResult Tx :=
  let resolver := resolverAddress.getD cfg.resolver
  let tx : Tx := ⟨resolver, .setAddr node address⟩
  ⟨.ok tx, [.submit tx]⟩

/-- Registration `registerBasename` from `contracts.ts`: pre-flight
`simulateContract` of the `register` call; a simulation revert aborts before
any submission, otherwise the transaction is submitted (the command layer
waits for confirmation). -/
def registerBasenameModel (cfg : NetworkConfig) (env : Chain) (owner : String)
    (label : String) (duration : Nat) (reverseRecord : Bool) : OpResult Tx :=
  let call := Call.register (ensNormalize label) owner duration cfg.resolver reverseRecord
  let tx : Tx := ⟨cfg.registrarController, call⟩
  match env.simulateRegister with
  | some reason => ⟨.error (.simulationFailed reason), [.simulate tx]⟩
  | none => ⟨.ok tx, [.simulate tx, .submit tx]⟩

/-- Post-submission report of a confirmed transaction. -/
inductive TxReport where
  | confirmed (tx : Tx)
  | reverted
  deriving DecidableEq

/-- Confirmation epilogue of the `register` command (`register.ts`):
`waitForTransactionReceipt` with 2 confirmations, then the receipt status
decides between success (hash reported) and "Transaction reverted". -/
def registerConfirmModel (env : Chain) (tx : Tx) : TxReport × List NetAction :=
  ((if env.receiptStatus tx then TxReport.confirmed tx else TxReport.reverted),
   [NetAction.waitReceipt 2])

/-- Per-stage outcome of the contract-naming workflow, the `WorkflowResult`
vocabulary of the specification. -/
inductive StageOutcome where
  | notRun
  | skipped
  | submitted (tx : Tx)
  | noop
  | failed (e : OpError)
  | warned (e : OpError)
  deriving DecidableEq

/-- Stage outcome of a write that either submitted one transaction or was an
idempotent no-op. -/
def stageOf : Option Tx → StageOutcome
  | some tx => .submitted tx
  | none => .noop

/-- Overall record of one `nameContract` run: stage-1 verdict, outcomes of
stages 2-4, whether the command reached its success summary, and every
simulate/submit/wait effect performed. -/
structure WorkflowRun where
  stage1Ok : Bool
  stage2 : StageOutcome
  stage3 : StageOutcome
  stage4 : StageOutcome
  success : Bool
  actions : List NetAction
  deriving DecidableEq

/-- Contract-naming command `nameContract` (the 4-stage workflow): parent
ownership check (fatal), subname creation (fatal on error), forward address
record with the network coin type (fatal on error), then reverse resolution,
whose failure only produces a warning while the command still reports
success. -/
def nameContractModel (cfg : NetworkConfig) (env : Chain) (signer contractAddress : String)
    (label : String) (parentLabels : List String) (noReverse : Bool) : WorkflowRun :=
  let parentNode := namehashLabels parentLabels
  let lblHash := rawLabelHash (ensNormalize label)
  let subnameNode := calculateSubnameNode parentNode lblHash
  let fullName := ensNormalize label :: parentLabels
  if ¬ checkParentOwnershipModel env signer parentNode then
    ⟨false, .notRun, .notRun, .notRun, false, []⟩
  else
    let r2 := createSubnameModel cfg env signer parentNode lblHash
    match r2.result with
    | .error e => ⟨true, .failed e, .notRun, .notRun, false, r2.actions⟩
    | .ok t2 =>
      match getResolverFromParentModel cfg env parentNode with
      | .error e => ⟨true, stageOf t2, .failed e, .notRun, false, r2.actions⟩
      | .ok resolver =>
        let r3 := setAddressRecordWithCoinTypeModel env subnameNode contractAddress
          (getCoinType cfg) resolver
        match r3.result with
        | .error e => ⟨true, stageOf t2, .failed e, .notRun, false, r2.actions ++ r3.actions⟩
        | .ok t3 =>
          if noReverse then
            ⟨true, stageOf t2, stageOf t3, .skipped, true, r2.actions ++ r3.actions⟩
          else
            let r4 := setReverseResolutionL2Model cfg env contractAddress fullName
            match r4.result with
            | .error e =>
              ⟨true, stageOf t2, stageOf t3, .warned e, true,
                r2.actions ++ r3.actions ++ r4.actions⟩
            | .ok t4 =>
              ⟨true, stageOf t2, stageOf t3, stageOf t4, true,
                r2.actions ++ r3.actions ++ r4.actions⟩

/-- Outcome printed by the resolver-lookup command: resolver from the index,
resolver from the chain, a "no resolver found" report, or an error from the
authoritative path. -/
inductive ResolveOutcome where
  | fromIndex (addr : String)
  | fromChain (addr : String)
  | notFound
  | failed (e : OpError)
  deriving DecidableEq

/-- Resolver-lookup command `getResolverAddress`: try the indexed service
first (any thrown error is swallowed; a missing record, missing field or
empty field falls through), then the authoritative registry read; `null`
reports not-found, a thrown RPC error is reported by the outer handler. -/
def getResolverAddressModel (cfg : NetworkConfig) (env : Chain)
    (input : List String) : ResolveOutcome :=
  let node := (NodeV1.normalizeBasename input cfg).node
  let fallThrough :=
    match getResolverModel env node with
    | .error e => ResolveOutcome.failed e
    | .ok (some r) => ResolveOutcome.fromChain r
    | .ok none => ResolveOutcome.notFound
  match env.index with
  | .failure => fallThrough
  | .ok none => fallThrough
  | .ok (some dd) =>
    match dd.resolverAddress with
    | none => fallThrough
    | some s => if s = "" then fallThrough else ResolveOutcome.fromIndex s

/-- Misses of the indexed service that the specification requires to be
swallowed: thrown lookup error, absent record, absent field, empty field. -/
def indexMiss : IndexResult → Prop
  | .failure => True
  | .ok none => True
  | .ok (some dd) => dd.resolverAddress = none ∨ dd.resolverAddress = some ""

instance (i : IndexResult) : Decidable (indexMiss i) := by
  unfold indexMiss
  cases i with
  | failure => exact inferInstanceAs (Decidable True)
  | ok d =>
    cases d with
    | none => exact inferInstanceAs (Decidable True)
    | some dd => exact inferInstanceAs (Decidable (_ ∨ _))

/-- Chain-state transition performed by a confirmed transaction, following
the external contract interfaces of the protocol surface (spec §6):
`setSubnodeRecord` records owner and resolver of the child node,
`setAddr` with coin type stores the encoded address bytes, 4-argument
`setNameForAddr` stores the primary name of the target address.  Reads not
affected by the call are unchanged. -/
def applyTx (env : Chain) (tx : Tx) : Chain :=
  match tx.call with
  | .setSubnodeRecord pn lh owner resolver _ =>
    { env with
      ownerOf := fun n => if n = calculateSubnameNode pn lh then owner else env.ownerOf n
      resolverRead := fun n =>
        if n = calculateSubnameNode pn lh then .ok resolver else env.resolverRead n }
  | .setAddrWithCoinType node coinType addrBytes =>
    { env with
      addrForCoin := fun n c =>
        if n = node ∧ c = coinType then addrBytes else env.addrForCoin n c }
  | .setNameForAddr4 addr _ _ name =>
    { env with
      nameForAddr := fun a => if a = addr then name else env.nameForAddr a }
  | _ => env

theorem charToNat_ofNat (m : Nat) (h : m < 55296) : (Char.ofNat m).toNat = m := by
  unfold Char.ofNat
  rw [dif_pos (Or.inl h)]
  rfl

theorem char_toLower_toLower (c : Char) : c.toLower.toLower = c.toLower := by
  unfold Char.toLower
  by_cases h : c.toNat ≥ 65 ∧ c.toNat ≤ 90
  · rw [if_pos h]
    have hv : (Char.ofNat (c.toNat + 32)).toNat = c.toNat + 32 :=
      charToNat_ofNat _ (by omega)
    rw [if_neg]
    rw [hv]
    omega
  · rw [if_neg h, if_neg h]

theorem lowerStr_idem (s : String) : lowerStr (lowerStr s) = lowerStr s := by
  unfold lowerStr
  refine congrArg String.mk ?_
  show (s.data.map Char.toLower).map Char.toLower = s.data.map Char.toLower
  rw [List.map_map]
  exact List.map_congr_left (fun c _ => char_toLower_toLower c)

/-- Normalization is idempotent (testable property §8): normalizing an
already-normalized label changes nothing. -/
theorem ensNormalize_idem (s : String) : ensNormalize (ensNormalize s) = ensNormalize s :=
  lowerStr_idem s

theorem removeParentSuffix_single (l : String) (parent : List String) (hp : parent ≠ []) :
    removeParentSuffix [l] parent = [l] := by
  unfold removeParentSuffix
  rw [if_neg]
  rintro ⟨h1, -⟩
  simp only [List.length_singleton] at h1
  exact hp (List.length_eq_zero.mp (by omega))

theorem removeParentSuffix_cons (l : String) (parent : List String) :
    removeParentSuffix (l :: parent) parent = [l] := by
  unfold removeParentSuffix
  rw [if_pos]
  · simp
  · refine ⟨by simp, ?_⟩
    simp

/-- C1 (counterexample): for the concrete subname `a.b.basetest.eth` (k = 2
labels after removing the parent-domain suffix), the node computed by the
`normalizeBasename` of `src/utils/node.ts` is NOT the iterated standard
recursive scheme over the two labels — it is the top-level basename formula
applied to the first label alone. -/
theorem c1_subname_regime_counterexample :
    (NodeV1.normalizeBasename ["a", "b", "basetest", "eth"] baseSepoliaConfig).node
        ≠ namehashLabels ["a", "b", "basetest", "eth"]
    ∧ (NodeV1.normalizeBasename ["a", "b", "basetest", "eth"] baseSepoliaConfig).node
        = calculateBasenameNode "a" baseSepoliaConfig := by
  constructor
  · decide
  · decide

/-- C1 (amended): the subname-aware variant of `normalizeBasename` computes,
for every name whose label path has k ≥ 2 labels after removing the
parent-domain suffix, the node by iterated application of the standard
recursive scheme (namehash) over all k labels on top of the parent domain's
node — regime 2, not the top-level basename formula. -/
theorem c1_subname_uses_recursive_scheme (cfg : NetworkConfig) (input : List String)
    (hk : 2 ≤ (NodeV2.extractLabel input cfg).length) :
    (NodeV2.normalizeBasename input cfg).node
      = iterScheme (namehashLabels cfg.parentDomain)
          ((NodeV2.extractLabel input cfg).map ensNormalize) := by
  have hs : NodeV2.isSubname input cfg = true := by
    unfold NodeV2.isSubname
    exact decide_eq_true (by omega)
  simp only [NodeV2.normalizeBasename, NodeV2.getFullBasename, hs, if_true]
  exact namehashLabels_append _ _

/-- C1 (witness): the amended statement at the concrete subname
`sub.alice.basetest.eth`. -/
theorem c1_subname_uses_recursive_scheme_witness :
    2 ≤ (NodeV2.extractLabel ["sub", "alice", "basetest", "eth"] baseSepoliaConfig).length
    ∧ (NodeV2.normalizeBasename ["sub", "alice", "basetest", "eth"] baseSepoliaConfig).node
      = iterScheme (namehashLabels baseSepoliaConfig.parentDomain)
          ((NodeV2.extractLabel ["sub", "alice", "basetest", "eth"] baseSepoliaConfig).map
            ensNormalize) :=
  ⟨by decide, c1_subname_uses_recursive_scheme baseSepoliaConfig _ (by decide)⟩

/-- C2: for every top-level name — a bare label or `label.parentDomain` — the
node computed by `normalizeBasename` equals keccak256 of the parent domain's
namehash node concatenated with keccak256 of the normalized label. -/
theorem c2_toplevel_node_formula (cfg : NetworkConfig) (l : String)
    (hp : cfg.parentDomain ≠ []) :
    (NodeV1.normalizeBasename [l] cfg).node
        = keccakPair (namehashLabels cfg.parentDomain) (rawLabelHash (ensNormalize l))
    ∧ (NodeV1.normalizeBasename (l :: cfg.parentDomain) cfg).node
        = keccakPair (namehashLabels cfg.parentDomain) (rawLabelHash (ensNormalize l)) := by
  constructor
  · simp only [NodeV1.normalizeBasename, NodeV1.extractLabel,
      removeParentSuffix_single l _ hp, List.headD_cons, calculateBasenameNode,
      getParentNode, ensNormalize_idem]
  · simp only [NodeV1.normalizeBasename, NodeV1.extractLabel,
      removeParentSuffix_cons, List.headD_cons, calculateBasenameNode,
      getParentNode, ensNormalize_idem]

/-- C2 (witness): the formula at the concrete label `vitalik` on Base
Sepolia. -/
theorem c2_toplevel_node_formula_witness :
    baseSepoliaConfig.parentDomain ≠ []
    ∧ (NodeV1.normalizeBasename ["vitalik"] baseSepoliaConfig).node
        = keccakPair (namehashLabels baseSepoliaConfig.parentDomain)
            (rawLabelHash (ensNormalize "vitalik")) :=
  ⟨by decide, (c2_toplevel_node_formula baseSepoliaConfig "vitalik" (by decide)).1⟩

/-- C10: for the configured networks, `getCoinType` returns
`0x80000000 ||| chainId` (2147492101 for chain 8453, 2147568180 for chain
84532), and 60 for any configuration with a different chain id. -/
theorem c10_coin_type_formula :
    (∀ p ∈ BASENAMES_DEPLOYMENTS, getCoinType p.2 = Nat.lor 0x80000000 p.2.chainId)
    ∧ (∀ cfg : NetworkConfig, cfg.chainId ≠ 8453 → cfg.chainId ≠ 84532 →
        getCoinType cfg = 60)
    ∧ getCoinType baseConfig = 2147492101
    ∧ getCoinType baseSepoliaConfig = 2147568180 := by
  refine ⟨?_, ?_, by decide, by decide⟩
  · intro p hp
    fin_cases hp <;> decide
  · intro cfg h1 h2
    unfold getCoinType
    rw [if_neg h1, if_neg h2]

/-- C10 (witness): the formula applied to the Base mainnet entry of the
deployment table, and the 60 default at a configuration with chain id 1. -/
theorem c10_coin_type_formula_witness :
    getCoinType baseConfig = Nat.lor 0x80000000 baseConfig.chainId
    ∧ getCoinType ⟨1, [], "", "", "", "", ""⟩ = 60 :=
  ⟨c10_coin_type_formula.1 ("base", baseConfig) (by decide),
   c10_coin_type_formula.2.1 ⟨1, [], "", "", "", "", ""⟩ (by decide) (by decide)⟩

/-- C3: for every resolver-address query, any indexed-service miss (thrown
lookup error, absent record, absent or empty field) is swallowed and the
lookup falls through to the authoritative registry read — on-chain value when
present, not-found when absent on both — and an error outcome can only come
from the authoritative path, never from the index. -/
theorem c3_index_failure_swallowed (cfg : NetworkConfig) (env : Chain)
    (input : List String) :
    (indexMiss env.index →
      getResolverAddressModel cfg env input =
        (match getResolverModel env ((NodeV1.normalizeBasename input cfg).node) with
         | .ok (some r) => ResolveOutcome.fromChain r
         | .ok none => ResolveOutcome.notFound
         | .error e => ResolveOutcome.failed e))
    ∧ (∀ e, getResolverAddressModel cfg env input = .failed e →
        getResolverModel env ((NodeV1.normalizeBasename input cfg).node) = .error e) := by
  have swap : ∀ r : Except OpError (Option String),
      (match r with
       | .error e => ResolveOutcome.failed e
       | .ok (some a) => ResolveOutcome.fromChain a
       | .ok none => ResolveOutcome.notFound) =
      (match r with
       | .ok (some a) => ResolveOutcome.fromChain a
       | .ok none => ResolveOutcome.notFound
       | .error e => ResolveOutcome.failed e) := by
    intro r
    rcases r with e | o
    · rfl
    · cases o <;> rfl
  constructor
  · intro hmiss
    unfold getResolverAddressModel
    cases hidx : env.index with
    | failure => simp only; exact swap _
    | ok d =>
      cases d with
      | none => simp only; exact swap _
      | some dd =>
        rw [hidx] at hmiss
        unfold indexMiss at hmiss
        rcases hmiss with h | h <;> simp [h] <;> exact swap _
  · intro e he
    unfold getResolverAddressModel at he
    cases hidx : env.index with
    | failure =>
      rw [hidx] at he
      simp only at he
      cases hr : getResolverModel env ((NodeV1.normalizeBasename input cfg).node) with
      | error e2 => rw [hr] at he; simpa using he
      | ok o =>
        cases o <;> rw [hr] at he <;> simp at he
    | ok d =>
      rw [hidx] at he
      cases d with
      | none =>
        simp only at he
        cases hr : getResolverModel env ((NodeV1.normalizeBasename input cfg).node) with
        | error e2 => rw [hr] at he; simpa using he
        | ok o => cases o <;> rw [hr] at he <;> simp at he
      | some dd =>
        simp only at he
        cases hra : dd.resolverAddress with
        | none =>
          rw [hra] at he
          simp only at he
          cases hr : getResolverModel env ((NodeV1.normalizeBasename input cfg).node) with
          | error e2 => rw [hr] at he; simpa using he
          | ok o => cases o <;> rw [hr] at he <;> simp at he
        | some s =>
          rw [hra] at he
          simp only at he
          by_cases hs : s = ""
          · rw [if_pos hs] at he
            cases hr : getResolverModel env ((NodeV1.normalizeBasename input cfg).node) with
            | error e2 => rw [hr] at he; simpa using he
            | ok o => cases o <;> rw [hr] at he <;> simp at he
          · rw [if_neg hs] at he
            simp at he

/-- Sample chain state for concrete instantiations: a failing indexed service,
a registry with no owners, one resolver everywhere, no stored records. -/
def chainA : Chain :=
  { ownerOf := fun _ => zeroAddress
    resolverRead := fun _ => .ok "0x6533C94869D28fAA8dF77cc63f9e2b2D6Cf77eBA"
    addrForCoin := fun _ _ => ""
    nameForAddr := fun _ => []
    contractOwner := fun _ => none
    simulateRegister := none
    receiptStatus := fun _ => true
    index := .failure }

/-- C3 (witness): with the indexed service down and the registry answering a
resolver, the lookup returns the on-chain resolver. -/
theorem c3_index_failure_swallowed_witness :
    indexMiss chainA.index
    ∧ getResolverAddressModel baseSepoliaConfig chainA ["alice"]
        = .fromChain "0x6533C94869D28fAA8dF77cc63f9e2b2D6Cf77eBA" :=
  ⟨by decide,
   ((c3_index_failure_swallowed baseSepoliaConfig chainA ["alice"]).1 (by decide)).trans
     (by decide)⟩

/-- C4: subname creation is idempotent: when the child node's registry owner
already equals the signer (case-insensitively), the operation performs no
transaction and reports a no-op; consequently a second call right after a
successful first call (whose `setSubnodeRecord` has taken effect on the
registry) submits nothing. -/
theorem c4_subname_creation_idempotent (cfg : NetworkConfig) (env : Chain)
    (signer : String) (parentNode lblHash : Nat) :
    (∀ a, getOwnerModel env (calculateSubnameNode parentNode lblHash) = some a →
      lowerStr a = lowerStr signer →
      createSubnameModel cfg env signer parentNode lblHash = ⟨.ok none, []⟩)
    ∧ (∀ tx acts, signer ≠ zeroAddress →
        createSubnameModel cfg env signer parentNode lblHash = ⟨.ok (some tx), acts⟩ →
        createSubnameModel cfg (applyTx env tx) signer parentNode lblHash = ⟨.ok none, []⟩) := by
  constructor
  · intro a ha hlow
    simp only [createSubnameModel]
    rw [ha]
    simp [hlow]
  · intro tx acts hsz hcall
    simp only [createSubnameModel] at hcall
    cases ho : getOwnerModel env (calculateSubnameNode parentNode lblHash) with
    | some a =>
      simp only [ho] at hcall
      by_cases hla : lowerStr a = lowerStr signer
      · rw [if_pos hla] at hcall
        simp at hcall
      · rw [if_neg hla] at hcall
        by_cases hz : a = zeroAddress
        · rw [if_neg (by simp [hz])] at hcall
          cases hr : getResolverFromParentModel cfg env parentNode with
          | error e => simp only [hr] at hcall; simp at hcall
          | ok resolver =>
            simp only [hr, OpResult.mk.injEq, Except.ok.injEq, Option.some.injEq] at hcall
            obtain ⟨h1, -⟩ := hcall
            subst h1
            simp only [createSubnameModel, applyTx, getOwnerModel]
            simp [hsz]
        · rw [if_pos (by simp [hz])] at hcall
          simp at hcall
    | none =>
      simp only [ho] at hcall
      cases hr : getResolverFromParentModel cfg env parentNode with
      | error e => simp only [hr] at hcall; simp at hcall
      | ok resolver =>
        simp only [hr, OpResult.mk.injEq, Except.ok.injEq, Option.some.injEq] at hcall
        obtain ⟨h1, -⟩ := hcall
        subst h1
        simp only [createSubnameModel, applyTx, getOwnerModel]
        simp [hsz]

/-- First subname-creation transaction on `chainA` for parent node 1, label
hash 2, signer `0xabcd`: registry `setSubnodeRecord` with the parent's
resolver. -/
def txFirst : Tx :=
  ⟨baseSepoliaConfig.registry,
   .setSubnodeRecord 1 2 "0xabcd" "0x6533C94869D28fAA8dF77cc63f9e2b2D6Cf77eBA" 0⟩

/-- C4 (witness): concrete no-op when the child is already owned by the signer
(case-insensitively), and a concrete first-call-then-second-call run where the
second call performs nothing. -/
theorem c4_subname_creation_idempotent_witness :
    getOwnerModel { chainA with ownerOf := fun _ => "0xAbCd" }
        (calculateSubnameNode 1 2) = some "0xAbCd"
    ∧ lowerStr "0xAbCd" = lowerStr "0xabcd"
    ∧ createSubnameModel baseSepoliaConfig { chainA with ownerOf := fun _ => "0xAbCd" }
        "0xabcd" 1 2 = ⟨.ok none, []⟩
    ∧ createSubnameModel baseSepoliaConfig chainA "0xabcd" 1 2
        = ⟨.ok (some txFirst), [.submit txFirst, .waitReceipt 2]⟩
    ∧ createSubnameModel baseSepoliaConfig (applyTx chainA txFirst) "0xabcd" 1 2
        = ⟨.ok none, []⟩ :=
  ⟨by decide, by decide,
   (c4_subname_creation_idempotent baseSepoliaConfig
      { chainA with ownerOf := fun _ => "0xAbCd" } "0xabcd" 1 2).1
     "0xAbCd" (by decide) (by decide),
   by decide,
   (c4_subname_creation_idempotent baseSepoliaConfig chainA "0xabcd" 1 2).2
     txFirst [.submit txFirst, .waitReceipt 2] (by decide) (by decide)⟩

/-- C5: when the child node is already owned by a third party (neither the
signer nor the zero address), subname creation raises the conflict error and
submits no transaction, and the contract-naming workflow aborts at stage 2
with stages 3 and 4 never run and an empty effect trace. -/
theorem c5_third_party_conflict (cfg : NetworkConfig) (env : Chain)
    (signer contractAddress label : String) (parentLabels : List String)
    (noReverse : Bool) (a : String)
    (ho : getOwnerModel env (calculateSubnameNode (namehashLabels parentLabels)
            (rawLabelHash (ensNormalize label))) = some a)
    (hla : lowerStr a ≠ lowerStr signer) (hz : a ≠ zeroAddress) :
    createSubnameModel cfg env signer (namehashLabels parentLabels)
        (rawLabelHash (ensNormalize label))
      = ⟨.error (.subnameConflict a), []⟩
    ∧ (checkParentOwnershipModel env signer (namehashLabels parentLabels) = true →
        nameContractModel cfg env signer contractAddress label parentLabels noReverse
          = ⟨true, .failed (.subnameConflict a), .notRun, .notRun, false, []⟩) := by
  have h1 : createSubnameModel cfg env signer (namehashLabels parentLabels)
      (rawLabelHash (ensNormalize label)) = ⟨.error (.subnameConflict a), []⟩ := by
    simp only [createSubnameModel, ho]
    rw [if_neg hla, if_pos hz]
  refine ⟨h1, ?_⟩
  intro hown
  simp only [nameContractModel]
  rw [if_neg (by simp [hown])]
  simp [h1]

/-- C5 (witness): the conflict at a concrete third-party owner `0xEvil` for
label `vault` under `alice.basetest.eth`. -/
theorem c5_third_party_conflict_witness :
    getOwnerModel { chainA with ownerOf := fun _ => "0xEvil" }
        (calculateSubnameNode (namehashLabels ["alice", "basetest", "eth"])
          (rawLabelHash (ensNormalize "vault"))) = some "0xEvil"
    ∧ lowerStr "0xEvil" ≠ lowerStr "0xabcd"
    ∧ "0xEvil" ≠ zeroAddress
    ∧ createSubnameModel baseSepoliaConfig { chainA with ownerOf := fun _ => "0xEvil" }
        "0xabcd" (namehashLabels ["alice", "basetest", "eth"])
        (rawLabelHash (ensNormalize "vault"))
      = ⟨.error (.subnameConflict "0xEvil"), []⟩ :=
  ⟨by decide, by decide, by decide,
   (c5_third_party_conflict baseSepoliaConfig
      { chainA with ownerOf := fun _ => "0xEvil" } "0xabcd" "0xCafe" "vault"
      ["alice", "basetest", "eth"] false "0xEvil" (by decide) (by decide) (by decide)).1⟩

/-- C6: when stages 1-3 of the contract-naming workflow succeed and stage 4
(reverse resolution) fails, the workflow still reports overall success with
stages 2 and 3 keeping their outcomes, stage 4 downgraded to a warning, the
effect trace exactly that of stages 2-3 (stage 4 contributed nothing — in
particular no rollback transaction). -/
theorem c6_stage4_failure_nonfatal (cfg : NetworkConfig) (env : Chain)
    (signer contractAddress label : String) (parentLabels : List String)
    (t2 t3 : Option Tx) (rv : String) (e : OpError)
    (h1 : checkParentOwnershipModel env signer (namehashLabels parentLabels) = true)
    (h2 : (createSubnameModel cfg env signer (namehashLabels parentLabels)
            (rawLabelHash (ensNormalize label))).result = .ok t2)
    (h3 : getResolverFromParentModel cfg env (namehashLabels parentLabels) = .ok rv)
    (h4 : (setAddressRecordWithCoinTypeModel env
            (calculateSubnameNode (namehashLabels parentLabels)
              (rawLabelHash (ensNormalize label)))
            contractAddress (getCoinType cfg) rv).result = .ok t3)
    (h5 : (setReverseResolutionL2Model cfg env contractAddress
            (ensNormalize label :: parentLabels)).result = .error e) :
    nameContractModel cfg env signer contractAddress label parentLabels false
      = ⟨true, stageOf t2, stageOf t3, .warned e, true,
          (createSubnameModel cfg env signer (namehashLabels parentLabels)
            (rawLabelHash (ensNormalize label))).actions
          ++ (setAddressRecordWithCoinTypeModel env
              (calculateSubnameNode (namehashLabels parentLabels)
                (rawLabelHash (ensNormalize label)))
              contractAddress (getCoinType cfg) rv).actions
          ++ (setReverseResolutionL2Model cfg env contractAddress
              (ensNormalize label :: parentLabels)).actions⟩
    ∧ (setReverseResolutionL2Model cfg env contractAddress
        (ensNormalize label :: parentLabels)).actions = [] := by
  constructor
  · simp only [nameContractModel]
    rw [if_neg (by simp [h1])]
    simp only [h2, h3, h4, h5]
    simp
  · simp only [setReverseResolutionL2Model] at h5 ⊢
    by_cases hn : env.nameForAddr contractAddress ≠ []
        ∧ (env.nameForAddr contractAddress).map lowerStr
            = ((ensNormalize label :: parentLabels)).map lowerStr
    · rw [if_pos hn] at h5
      simp at h5
    · rw [if_neg hn] at h5 ⊢
      cases hc : env.contractOwner contractAddress with
      | none => simp only [hc]
      | some o => simp only [hc] at h5; simp at h5

/-- Forward-resolution transaction of the concrete C6/scenario-B run: a
coin-typed `setAddr` for `vault.alice.basetest.eth` pointing at `0xCafe`. -/
def txForward : Tx :=
  ⟨"0x6533C94869D28fAA8dF77cc63f9e2b2D6Cf77eBA",
   .setAddrWithCoinType
     (calculateSubnameNode (namehashLabels ["alice", "basetest", "eth"])
       (rawLabelHash (ensNormalize "vault")))
     (getCoinType baseSepoliaConfig) (encodeAddr "0xCafe")⟩

/-- C6 (witness): concrete run naming contract `0xCafe` as
`vault.alice.basetest.eth` where the target contract has no `owner()`
function: stages 1-3 succeed (stage 2 a no-op, stage 3 submits), stage 4
degrades to a warning, and the workflow reports success. -/
theorem c6_stage4_failure_nonfatal_witness :
    nameContractModel baseSepoliaConfig { chainA with ownerOf := fun _ => "0xAbCd" }
        "0xabcd" "0xCafe" "vault" ["alice", "basetest", "eth"] false
      = ⟨true, .noop, .submitted txForward, .warned (.ownerReadFailed "0xCafe"), true,
          [.submit txForward, .waitReceipt 2]⟩ :=
  ((c6_stage4_failure_nonfatal baseSepoliaConfig
      { chainA with ownerOf := fun _ => "0xAbCd" } "0xabcd" "0xCafe" "vault"
      ["alice", "basetest", "eth"] none (some txForward)
      "0x6533C94869D28fAA8dF77cc63f9e2b2D6Cf77eBA" (.ownerReadFailed "0xCafe")
      (by decide) (by decide) (by decide) (by decide) (by decide)).1).trans (by decide)

/-- Discriminator for pre-flight simulation actions. -/
def isSimulate : NetAction → Bool
  | .simulate _ => true
  | _ => false

/-- C7 (counterexample): at a concrete text-record write, the operation
submits its transaction with no pre-flight simulation anywhere in its trace
(likewise for the address-record and primary-name writers), refuting "every
state-changing record write is simulated before submission". -/
theorem c7_record_writes_unsimulated_counterexample :
    setTextRecordOnChainModel baseSepoliaConfig none 7 "url" "https://example.org"
      = ⟨.ok ⟨baseSepoliaConfig.resolver, .setText 7 "url" "https://example.org"⟩,
         [.submit ⟨baseSepoliaConfig.resolver, .setText 7 "url" "https://example.org"⟩]⟩
    ∧ (setTextRecordOnChainModel baseSepoliaConfig none 7 "url" "https://example.org").actions.all
        (fun a => !(isSimulate a)) = true
    ∧ (setAddressRecordOnChainModel baseSepoliaConfig none 7 "0xCafe").actions.all
        (fun a => !(isSimulate a)) = true
    ∧ (setPrimaryNameOnChainModel baseSepoliaConfig "0xabcd"
        ["vault", "alice", "basetest", "eth"]).actions.all
        (fun a => !(isSimulate a)) = true := by
  refine ⟨by decide, by decide, by decide, by decide⟩

/-- C7 (amended): only basename registration is simulated against current
chain state before submission — a simulation revert aborts it before any
transaction with the failure surfaced — while the text-record, address-record
and primary-name writers submit directly without any simulation. -/
theorem c7_simulation_only_for_register (cfg : NetworkConfig) (env : Chain)
    (owner label : String) (duration : Nat) (reverseRecord : Bool)
    (resolverAddress : Option String) (node : Nat)
    (key value address signer : String) (name : List String) :
    (∀ r, env.simulateRegister = some r →
      registerBasenameModel cfg env owner label duration reverseRecord
        = ⟨.error (.simulationFailed r),
           [.simulate ⟨cfg.registrarController,
             .register (ensNormalize label) owner duration cfg.resolver reverseRecord⟩]⟩)
    ∧ (env.simulateRegister = none →
      registerBasenameModel cfg env owner label duration reverseRecord
        = ⟨.ok ⟨cfg.registrarController,
             .register (ensNormalize label) owner duration cfg.resolver reverseRecord⟩,
           [.simulate ⟨cfg.registrarController,
              .register (ensNormalize label) owner duration cfg.resolver reverseRecord⟩,
            .submit ⟨cfg.registrarController,
              .register (ensNormalize label) owner duration cfg.resolver reverseRecord⟩]⟩)
    ∧ (setTextRecordOnChainModel cfg resolverAddress node key value).actions
        = [.submit ⟨resolverAddress.getD cfg.resolver, .setText node key value⟩]
    ∧ (setAddressRecordOnChainModel cfg resolverAddress node address).actions
        = [.submit ⟨resolverAddress.getD cfg.resolver, .setAddr node address⟩]
    ∧ (setPrimaryNameOnChainModel cfg signer name).actions
        = [.submit ⟨cfg.reverseRegistrar, .setNameForAddr4 signer signer cfg.resolver name⟩] := by
  refine ⟨?_, ?_, rfl, rfl, rfl⟩
  · intro r hr
    simp only [registerBasenameModel, hr]
  · intro hr
    simp only [registerBasenameModel, hr]

/-- C7 (witness): a failing simulation at a concrete registration aborts with
the revert reason and submits nothing; record writers at concrete inputs
submit without simulating. -/
theorem c7_simulation_only_for_register_witness :
    { chainA with simulateRegister := some "not authorized" : Chain }.simulateRegister
        = some "not authorized"
    ∧ registerBasenameModel baseSepoliaConfig
        { chainA with simulateRegister := some "not authorized" }
        "0xabcd" "coolname" 31536000 true
      = ⟨.error (.simulationFailed "not authorized"),
         [.simulate ⟨baseSepoliaConfig.registrarController,
           .register (ensNormalize "coolname") "0xabcd" 31536000
             baseSepoliaConfig.resolver true⟩]⟩
    ∧ (setTextRecordOnChainModel baseSepoliaConfig none 7 "url" "https://example.org").actions
        = [.submit ⟨baseSepoliaConfig.resolver, .setText 7 "url" "https://example.org"⟩] :=
  ⟨rfl,
   (c7_simulation_only_for_register baseSepoliaConfig
      { chainA with simulateRegister := some "not authorized" }
      "0xabcd" "coolname" 31536000 true none 7 "url" "https://example.org" "0xCafe" "0xabcd"
      []).1 "not authorized" rfl,
   (c7_simulation_only_for_register baseSepoliaConfig chainA "0xabcd" "coolname" 31536000
      true none 7 "url" "https://example.org" "0xCafe" "0xabcd" []).2.2.1⟩

/-- Chain state whose mined receipts all report failure. -/
def chainRevert : Chain := { chainA with receiptStatus := fun _ => false }

/-- C8 (counterexample): a concrete subname creation whose mined receipt
indicates failure is still returned as a success with the transaction hash —
the workflow writer waits the 2 confirmations but never inspects the receipt
status, so the failure is not reported as a reverted transaction. -/
theorem c8_revert_ignored_counterexample :
    chainRevert.receiptStatus txFirst = false
    ∧ createSubnameModel baseSepoliaConfig chainRevert "0xabcd" 1 2
        = ⟨.ok (some txFirst), [.submit txFirst, .waitReceipt 2]⟩ := by
  refine ⟨rfl, by decide⟩

/-- C8 (amended): every submitted write transaction is followed by a wait of
exactly 2 confirmations (the workflow writers wait internally; the register
command waits at the command layer and reports a reverted transaction when
the receipt indicates failure, otherwise returns the hash); the workflow
writers themselves ignore the receipt status. -/
theorem c8_two_confirmations (cfg : NetworkConfig) (env : Chain) (signer : String)
    (parentNode lblHash node coinType : Nat) (address contractAddress : String)
    (resolverAddress : String) (name : List String) (tx : Tx) (f : Tx → Bool) :
    ((createSubnameModel cfg env signer parentNode lblHash).actions
      = (match (createSubnameModel cfg env signer parentNode lblHash).result with
         | .ok (some t) => [.submit t, .waitReceipt 2]
         | _ => []))
    ∧ ((setAddressRecordWithCoinTypeModel env node address coinType resolverAddress).actions
      = (match (setAddressRecordWithCoinTypeModel env node address coinType
            resolverAddress).result with
         | .ok (some t) => [.submit t, .waitReceipt 2]
         | _ => []))
    ∧ ((setReverseResolutionL2Model cfg env contractAddress name).actions
      = (match (setReverseResolutionL2Model cfg env contractAddress name).result with
         | .ok (some t) => [.submit t, .waitReceipt 2]
         | _ => []))
    ∧ registerConfirmModel env tx
        = ((if env.receiptStatus tx then .confirmed tx else .reverted), [.waitReceipt 2])
    ∧ (env.receiptStatus tx = false →
        registerConfirmModel env tx = (.reverted, [.waitReceipt 2]))
    ∧ createSubnameModel cfg { env with receiptStatus := f } signer parentNode lblHash
        = createSubnameModel cfg env signer parentNode lblHash := by
  refine ⟨?_, ?_, ?_, rfl, ?_, rfl⟩
  · simp only [createSubnameModel]
    cases getOwnerModel env (calculateSubnameNode parentNode lblHash) with
    | some a =>
      by_cases hla : lowerStr a = lowerStr signer
      · simp only [if_pos hla]
      · simp only [if_neg hla]
        by_cases hz : a = zeroAddress
        · rw [if_neg (by simp [hz])]
          cases getResolverFromParentModel cfg env parentNode <;> simp only
        · rw [if_pos (by simp [hz])]
    | none =>
      cases getResolverFromParentModel cfg env parentNode <;> simp only
  · simp only [setAddressRecordWithCoinTypeModel]
    by_cases hc : env.addrForCoin node coinType ≠ ""
        ∧ (env.addrForCoin node coinType).length = 42
        ∧ lowerStr (env.addrForCoin node coinType) = lowerStr (encodeAddr address)
    · rw [if_pos hc]
    · rw [if_neg hc]
  · simp only [setReverseResolutionL2Model]
    by_cases hn : env.nameForAddr contractAddress ≠ []
        ∧ (env.nameForAddr contractAddress).map lowerStr = name.map lowerStr
    · rw [if_pos hn]
    · rw [if_neg hn]
      cases env.contractOwner contractAddress <;> simp only
  · intro hf
    simp only [registerConfirmModel, hf]
    simp

/-- C8 (witness): the reverted-receipt report of the register command at a
concrete transaction, and the 2-confirmation wait of a concrete subname
creation. -/
theorem c8_two_confirmations_witness :
    chainRevert.receiptStatus txFirst = false
    ∧ registerConfirmModel chainRevert txFirst = (.reverted, [.waitReceipt 2])
    ∧ (createSubnameModel baseSepoliaConfig chainA "0xabcd" 1 2).actions
        = (match (createSubnameModel baseSepoliaConfig chainA "0xabcd" 1 2).result with
           | .ok (some t) => [.submit t, .waitReceipt 2]
           | _ => []) :=
  ⟨rfl,
   (c8_two_confirmations baseSepoliaConfig chainRevert "0xabcd" 1 2 7 0 "0xCafe" "0xCafe"
      "0xRes" [] txFirst (fun _ => true)).2.2.2.2.1 rfl,
   (c8_two_confirmations baseSepoliaConfig chainA "0xabcd" 1 2 7 0 "0xCafe" "0xCafe"
      "0xRes" [] txFirst (fun _ => true)).1⟩

/-- Calling-convention arity of a reverse-registrar `setNameForAddr` payload. -/
def callArity : Call → Option Nat
  | .setNameForAddr2 _ _ => some 2
  | .setNameForAddr4 _ _ _ _ => some 4
  | _ => none

/-- C9: the `setNameForAddr` calling convention used by the primary-name
writers is fixed by the static network configuration alone — for every
runtime chain state, any submitted reverse-resolution transaction uses the
4-argument convention on the configured reverse registrar, and
`setPrimaryNameOnChain` always submits the 4-argument form; no runtime
probing can influence the arity, as two runs under arbitrary different chain
states use the same convention. -/
theorem c9_arity_from_static_config (cfg : NetworkConfig) (env : Chain)
    (contractAddress signer : String) (name : List String) :
    (∀ tx, (setReverseResolutionL2Model cfg env contractAddress name).result
        = .ok (some tx) →
      (∃ o, env.contractOwner contractAddress = some o
        ∧ tx = ⟨cfg.reverseRegistrar, .setNameForAddr4 contractAddress o cfg.resolver name⟩)
      ∧ callArity tx.call = some 4)
    ∧ setPrimaryNameOnChainModel cfg signer name
        = ⟨.ok ⟨cfg.reverseRegistrar, .setNameForAddr4 signer signer cfg.resolver name⟩,
           [.submit ⟨cfg.reverseRegistrar, .setNameForAddr4 signer signer cfg.resolver name⟩]⟩
    ∧ (∀ env1 env2 tx1 tx2,
        (setReverseResolutionL2Model cfg env1 contractAddress name).result = .ok (some tx1) →
        (setReverseResolutionL2Model cfg env2 contractAddress name).result = .ok (some tx2) →
        callArity tx1.call = callArity tx2.call) := by
  have key : ∀ envk : Chain, ∀ tx,
      (setReverseResolutionL2Model cfg envk contractAddress name).result = .ok (some tx) →
      (∃ o, envk.contractOwner contractAddress = some o
        ∧ tx = ⟨cfg.reverseRegistrar, .setNameForAddr4 contractAddress o cfg.resolver name⟩)
      ∧ callArity tx.call = some 4 := by
    intro envk tx htx
    simp only [setReverseResolutionL2Model] at htx
    by_cases hn : envk.nameForAddr contractAddress ≠ []
        ∧ (envk.nameForAddr contractAddress).map lowerStr = name.map lowerStr
    · rw [if_pos hn] at htx
      simp at htx
    · rw [if_neg hn] at htx
      cases hc : envk.contractOwner contractAddress with
      | none => simp only [hc] at htx; simp at htx
      | some o =>
        simp only [hc, Except.ok.injEq, Option.some.injEq] at htx
        refine ⟨⟨o, rfl, htx.symm⟩, ?_⟩
        rw [← htx]
        rfl
  refine ⟨key env, rfl, ?_⟩
  intro env1 env2 tx1 tx2 h1 h2
  rw [(key env1 tx1 h1).2, (key env2 tx2 h2).2]

/-- C9 (witness): a concrete reverse-resolution submission uses the
4-argument convention. -/
theorem c9_arity_from_static_config_witness :
    (setReverseResolutionL2Model baseSepoliaConfig
        { chainA with contractOwner := fun _ => some "0xOwner" } "0xCafe"
        ["vault", "alice", "basetest", "eth"]).result
      = .ok (some ⟨baseSepoliaConfig.reverseRegistrar,
          .setNameForAddr4 "0xCafe" "0xOwner" baseSepoliaConfig.resolver
            ["vault", "alice", "basetest", "eth"]⟩)
    ∧ callArity (Call.setNameForAddr4 "0xCafe" "0xOwner" baseSepoliaConfig.resolver
        ["vault", "alice", "basetest", "eth"]) = some 4 :=
  ⟨by decide,
   ((c9_arity_from_static_config baseSepoliaConfig
      { chainA with contractOwner := fun _ => some "0xOwner" } "0xCafe" "0xabcd"
      ["vault", "alice", "basetest", "eth"]).1
      ⟨baseSepoliaConfig.reverseRegistrar,
       .setNameForAddr4 "0xCafe" "0xOwner" baseSepoliaConfig.resolver
         ["vault", "alice", "basetest", "eth"]⟩ (by decide)).2⟩
